import Mathlib

/-!
Verification of the `aws_auth_backend_config_identity` resource adapter of
the terraform-provider-vault repository, together with the entity-alias
conflict behaviour exercised by its acceptance test.

Strings are embedded as `List Char` (`Str`), Go errors as error-message
strings, and the remote Vault client as a pure response function.  Each CRUD
callback is translated from `vault/resource_aws_auth_backend_config_identity.go`
as a state-passing function that also returns the list of remote API calls it
issued, so that frame properties ("issues no remote call") are statable.
-/

namespace TPV

/-- Go strings, embedded as lists of characters. -/
abbrev Str := List Char

/-- `strings.Trim(s, "/")`: removes all leading and trailing `'/'` characters. -/
def trimSlashes (s : Str) : Str :=
  ((s.dropWhile (· == '/')).reverse.dropWhile (· == '/')).reverse

/-- `needle` occurs contiguously inside `hay` (used to state that a wrapped
error message contains the path and the underlying cause). -/
def containsSub (needle hay : Str) : Prop :=
  ∃ p q, hay = p ++ needle ++ q

/-- The fixed prefix `"auth/"` of the identity-config path (5 characters). -/
def authPrefix : Str := "auth/".data

/-- The fixed suffix `"/config/identity"` of the identity-config path
(16 characters). -/
def identitySuffix : Str := "/config/identity".data

/-- `awsAuthBackendConfigIdentityPath`: builds
`"auth/" + strings.Trim(backend, "/") + "/config/identity"`. -/
def awsAuthBackendConfigIdentityPath (backend : Str) : Str :=
  authPrefix ++ trimSlashes backend ++ identitySuffix

/-- Semantics of the Go regexp `^auth/(.+)/config/identity$` applied to a
whole string: the anchors pin the match to the whole input, the two literal
pieces have fixed lengths 5 and 16, and each `.` of `(.+)` matches any
character except a newline, at least once.  Returns the capture group when the
input matches.  Because the literals have fixed length, a matching input has a
unique decomposition and the capture group is exactly the middle segment. -/
def regexCapture (s : Str) : Option Str :=
  if 22 ≤ s.length ∧ s.take 5 = authPrefix ∧ s.drop (s.length - 16) = identitySuffix
      ∧ ((s.drop 5).take (s.length - 21)).all (· != '\n')
  then some ((s.drop 5).take (s.length - 21))
  else none

/-- `awsAuthBackendConfigIdentityBackendFromPathRegex.MatchString(path)`. -/
def MatchString (s : Str) : Bool :=
  (regexCapture s).isSome

/-- `awsAuthBackendConfigIdentityBackendFromPathRegex.FindStringSubmatch(path)`:
`nil` (the empty list) when the input does not match, otherwise the two-element
slice `[whole match, capture group]`; with both anchors the whole match is the
whole input. -/
def FindStringSubmatch (s : Str) : List Str :=
  match regexCapture s with
  | some t => [s, t]
  | none => []

/-- The error message `"no backend found"`. -/
def errNoBackend : Str := "no backend found".data

/-- `fmt.Errorf("unexpected number of matches (%d) for backend", len(res))`. -/
def errUnexpectedMatches (n : Nat) : Str :=
  "unexpected number of matches (".data ++ (Nat.repr n).data ++ ") for backend".data

/-- `awsAuthBackendConfigIdentityBackendFromPath`: rejects non-matching paths
with a "no backend found" error, then defensively checks the submatch count
before returning the capture group. -/
def awsAuthBackendConfigIdentityBackendFromPath (path : Str) : Except Str Str :=
  if !(MatchString path) then
    Except.error errNoBackend
  else
    let res := FindStringSubmatch path
    if res.length ≠ 2 then
      Except.error (errUnexpectedMatches res.length)
    else
      Except.ok (res.getD 1 [])

/-- A Go `interface{}` value placed into the outbound payload map: either a
string, or a `[]string` slice (which may be `nil`, modelled as `none`). -/
inductive GoValue where
  | str (s : Str)
  | strArr (xs : Option (List Str))
deriving DecidableEq

/-- The outbound payload: the `map[string]interface{}` passed to
`client.Logical().Write`, as the list of its key/value entries in the order
the Go literal writes them (only key membership and key lookup matter). -/
abbrev Payload := List (Str × GoValue)

/-- The schema-level view of `*schema.ResourceData` for this resource: the
stored identifier plus the five declared fields.  `backend`, `iam_alias` and
`ec2_alias` hold what `d.Get` returns (declaration-level defaults already
applied by the SDK); the two metadata sets are `none` when `d.GetOk` reports
them as not set. -/
structure ResourceData where
  id : Str
  backend : Str
  iam_alias : Str
  ec2_alias : Str
  iam_metadata : Option (List Str)
  ec2_metadata : Option (List Str)
deriving DecidableEq

/-- The relevant keys of a non-nil `resp.Data` returned by the remote read, as
the schema layer coerces them when they are passed to `d.Set` (a missing key
coerces to the zero value of the field's type). -/
structure RespData where
  iam_alias : Str
  iam_metadata : List Str
  ec2_alias : Str
  ec2_metadata : List Str
deriving DecidableEq

/-- One remote API call issued through `client.Logical()`. -/
inductive RemoteCall where
  | read (path : Str)
  | write (path : Str) (data : Payload)
deriving DecidableEq

/-- The remote Vault client (`*api.Client`), as pure response functions:
`readResp` is what `client.Logical().Read(path)` returns (an error, or a
possibly-nil payload), `writeResp` is what `client.Logical().Write(path, data)`
returns (its non-error result is discarded by the adapter). -/
structure Client where
  readResp : Str → Except Str (Option RespData)
  writeResp : Str → Payload → Except Str Unit

/-- Modelled from the spec: `util.TerraformSetToStringArray` (the `util`
package of this repository is not in the snapshot) converts a Terraform set of
strings into a `[]string` array. -/
def TerraformSetToStringArray (s : List Str) : List Str := s

/-- Go's `%q` verb on a path: the string wrapped in double quotes (none of the
paths involved need escaping). -/
def goQuote (s : Str) : Str := '"' :: (s ++ ['"'])

/-- `fmt.Errorf("error configuring AWS auth identity config %q: %s", path, err)`. -/
def wrapWriteErr (path err : Str) : Str :=
  "error configuring AWS auth identity config ".data ++ goQuote path ++ ": ".data ++ err

/-- `fmt.Errorf("invalid path %q for AWS auth identity config:  %s", path, err)`. -/
def wrapInvalidPathErr (path err : Str) : Str :=
  "invalid path ".data ++ goQuote path ++ " for AWS auth identity config:  ".data ++ err

/-- `fmt.Errorf("error reading AWS auth backend identity config %q: %s", path, err)`. -/
def wrapReadErr (path err : Str) : Str :=
  "error reading AWS auth backend identity config ".data ++ goQuote path ++ ": ".data ++ err

/-- `fmt.Errorf("error checking for existence of AWS auth backend identity config %q: %s", path, err)`. -/
def wrapExistsErr (path err : Str) : Str :=
  "error checking for existence of AWS auth backend identity config ".data
    ++ goQuote path ++ ": ".data ++ err

/-- The `data` map built by `awsAuthBackendConfigIdentityWrite`: all four keys
are written unconditionally; a metadata field whose `GetOk` failed keeps the
zero value `var iamMetadata []string`, i.e. a nil slice. -/
def writePayload (d : ResourceData) : Payload :=
  [("iam_alias".data, GoValue.str d.iam_alias),
   ("iam_metadata".data, GoValue.strArr (d.iam_metadata.map TerraformSetToStringArray)),
   ("ec2_alias".data, GoValue.str d.ec2_alias),
   ("ec2_metadata".data, GoValue.strArr (d.ec2_metadata.map TerraformSetToStringArray))]

/-- `awsAuthBackendConfigIdentityRead`: parses the backend out of the stored
identifier (failing fast on a malformed identifier, before any remote call),
issues the remote read, wraps a transport error, drops the resource from state
on a nil payload, and otherwise populates the fields from the response and the
re-derived backend.  Returns the updated resource data, the remote calls
issued, and the Go `error` result (`none` = nil). -/
def awsAuthBackendConfigIdentityRead (client : Client) (d : ResourceData) :
    ResourceData × List RemoteCall × Option Str :=
  let path := d.id
  match awsAuthBackendConfigIdentityBackendFromPath path with
  | Except.error err => (d, [], some (wrapInvalidPathErr path err))
  | Except.ok backend =>
    match client.readResp path with
    | Except.error err => (d, [RemoteCall.read path], some (wrapReadErr path err))
    | Except.ok none => ({d with id := []}, [RemoteCall.read path], none)
    | Except.ok (some resp) =>
      ({d with iam_alias := resp.iam_alias,
               iam_metadata := some resp.iam_metadata,
               ec2_alias := resp.ec2_alias,
               ec2_metadata := some resp.ec2_metadata,
               backend := backend},
       [RemoteCall.read path], none)

/-- `awsAuthBackendConfigIdentityWrite`: builds the path and payload, issues
the remote write, wraps a failure (leaving the resource data untouched), and
on success sets the identifier to the path and delegates to the read
callback. -/
def awsAuthBackendConfigIdentityWrite (client : Client) (d : ResourceData) :
    ResourceData × List RemoteCall × Option Str :=
  let path := awsAuthBackendConfigIdentityPath d.backend
  let data := writePayload d
  match client.writeResp path data with
  | Except.error err => (d, [RemoteCall.write path data], some (wrapWriteErr path err))
  | Except.ok _ =>
    let r := awsAuthBackendConfigIdentityRead client {d with id := path}
    (r.1, RemoteCall.write path data :: r.2.1, r.2.2)

/-- `awsAuthBackendConfigIdentityDelete`: logs and returns nil. -/
def awsAuthBackendConfigIdentityDelete (_client : Client) (d : ResourceData) :
    ResourceData × List RemoteCall × Option Str :=
  (d, [], none)

/-- `awsAuthBackendConfigIdentityExists`: issues a remote read of the stored
identifier; on error returns `(true, wrapped error)`, otherwise
`(resp != nil, nil)`.  The resource data is never modified. -/
def awsAuthBackendConfigIdentityExists (client : Client) (d : ResourceData) :
    ResourceData × List RemoteCall × (Bool × Option Str) :=
  let path := d.id
  match client.readResp path with
  | Except.error err =>
      (d, [RemoteCall.read path], (true, some (wrapExistsErr path err)))
  | Except.ok resp => (d, [RemoteCall.read path], (resp.isSome, none))

/-! ### Regex semantics lemmas -/

theorem regexCapture_append (t : Str) (hne : t ≠ []) (hnl : t.all (· != '\n') = true) :
    regexCapture (authPrefix ++ t ++ identitySuffix) = some t := by
  have h5 : authPrefix.length = 5 := rfl
  have h16 : identitySuffix.length = 16 := rfl
  have htpos : 1 ≤ t.length := List.length_pos.mpr hne
  have hslen : (authPrefix ++ t ++ identitySuffix).length = 21 + t.length := by
    simp only [List.length_append, h5, h16]
    omega
  have htake : (authPrefix ++ t ++ identitySuffix).take 5 = authPrefix := by
    rw [List.append_assoc]
    exact List.take_left' h5
  have hdrop : (authPrefix ++ t ++ identitySuffix).drop
      ((authPrefix ++ t ++ identitySuffix).length - 16) = identitySuffix := by
    have hl : (authPrefix ++ t ++ identitySuffix).length - 16 = (authPrefix ++ t).length := by
      rw [hslen]
      simp only [List.length_append, h5]
      omega
    rw [hl]
    exact List.drop_left _ _
  have hmid : ((authPrefix ++ t ++ identitySuffix).drop 5).take
      ((authPrefix ++ t ++ identitySuffix).length - 21) = t := by
    have hd : (authPrefix ++ t ++ identitySuffix).drop 5 = t ++ identitySuffix := by
      rw [List.append_assoc]
      exact List.drop_left' h5
    rw [hd, hslen, Nat.add_sub_cancel_left]
    exact List.take_left _ _
  unfold regexCapture
  rw [if_pos]
  · rw [hmid]
  · refine ⟨by omega, htake, hdrop, ?_⟩
    rw [hmid]
    exact hnl

theorem regexCapture_some {s t : Str} (h : regexCapture s = some t) :
    s = authPrefix ++ t ++ identitySuffix ∧ t ≠ [] ∧ t.all (· != '\n') = true := by
  unfold regexCapture at h
  split at h
  case isFalse => exact absurd h (by simp)
  case isTrue hc =>
    obtain ⟨hlen, htake, hdrop, hnl⟩ := hc
    obtain rfl : (s.drop 5).take (s.length - 21) = t := Option.some_injective _ h
    have hmlen : ((s.drop 5).take (s.length - 21)).length = s.length - 21 := by
      simp only [List.length_take, List.length_drop]
      omega
    refine ⟨?_, ?_, hnl⟩
    · have e2 : (s.drop 5).drop (s.length - 21) = s.drop (s.length - 16) := by
        rw [List.drop_drop]
        congr 1
        omega
      calc s = s.take 5 ++ s.drop 5 := (List.take_append_drop 5 s).symm
        _ = authPrefix ++ s.drop 5 := by rw [htake]
        _ = authPrefix ++ ((s.drop 5).take (s.length - 21) ++ (s.drop 5).drop (s.length - 21)) := by
              rw [List.take_append_drop]
        _ = authPrefix ++ (s.drop 5).take (s.length - 21) ++ identitySuffix := by
              rw [e2, hdrop, List.append_assoc]
    · intro hnil
      rw [hnil] at hmlen
      simp only [List.length_nil] at hmlen
      omega

theorem MatchString_true_iff (s : Str) :
    MatchString s = true ↔
      ∃ t, s = authPrefix ++ t ++ identitySuffix ∧ t ≠ [] ∧ t.all (· != '\n') = true := by
  constructor
  · intro h
    unfold MatchString at h
    obtain ⟨t, ht⟩ := Option.isSome_iff_exists.mp h
    exact ⟨t, regexCapture_some ht⟩
  · rintro ⟨t, rfl, hne, hnl⟩
    unfold MatchString
    rw [regexCapture_append t hne hnl]
    rfl

theorem backendFromPath_ok {path t : Str} (h : regexCapture path = some t) :
    awsAuthBackendConfigIdentityBackendFromPath path = Except.ok t := by
  unfold awsAuthBackendConfigIdentityBackendFromPath MatchString FindStringSubmatch
  rw [h]
  rfl

theorem backendFromPath_err {path : Str} (h : regexCapture path = none) :
    awsAuthBackendConfigIdentityBackendFromPath path = Except.error errNoBackend := by
  unfold awsAuthBackendConfigIdentityBackendFromPath MatchString
  rw [h]
  rfl

theorem newline_free_all {t : Str} (h : '\n' ∉ t) : t.all (· != '\n') = true := by
  rw [List.all_eq_true]
  intro x hx
  exact bne_iff_ne.mpr (fun e => h (e ▸ hx))

/-! ### Sample clients and resource states, used as concrete witnesses -/

/-- A sample payload a remote read can return. -/
def sampleResp : RespData :=
  ⟨"role_id".data, ["instance_id".data], "role_id".data, []⟩

/-- A client whose reads report "not found" (nil payload) and whose writes
succeed. -/
def clientNotFound : Client :=
  ⟨fun _ => Except.ok none, fun _ _ => Except.ok ()⟩

/-- A client whose reads return `sampleResp` and whose writes succeed. -/
def clientFound : Client :=
  ⟨fun _ => Except.ok (some sampleResp), fun _ _ => Except.ok ()⟩

/-- A client whose remote calls all fail with a transport error. -/
def clientFailing : Client :=
  ⟨fun _ => Except.error "connection refused".data,
   fun _ _ => Except.error "connection refused".data⟩

/-- Sample resource data whose identifier is a conforming path and whose
metadata fields are not set. -/
def sampleData : ResourceData :=
  ⟨"auth/aws/config/identity".data, "aws".data, "role_id".data, "role_id".data, none, none⟩

/-- Sample resource data whose stored identifier is malformed. -/
def badIdData : ResourceData :=
  ⟨"bogus".data, "aws".data, "role_id".data, "role_id".data, none, none⟩

/-! ### Claims -/

/-- C1 (counterexample): for the backend name `"/"` the claimed round trip
fails: the built path is `auth//config/identity`, which the anchored pattern
rejects because `(.+)` needs at least one character, so the parser returns the
"no backend found" error instead of the trimmed backend. -/
theorem roundTrip_fails_on_slash_backend :
    awsAuthBackendConfigIdentityBackendFromPath
        (awsAuthBackendConfigIdentityPath "/".data) = Except.error errNoBackend ∧
    awsAuthBackendConfigIdentityBackendFromPath
        (awsAuthBackendConfigIdentityPath "/".data)
      ≠ Except.ok (trimSlashes "/".data) := by
  constructor
  · rfl
  · intro h
    rw [backendFromPath_err (by decide)] at h
    exact Except.noConfusion h

/-- C1 (amended): for every backend name `b` whose slash-trimmed form is
nonempty and contains no newline character, composing the path builder with
the path parser succeeds and returns the trimmed backend. -/
theorem roundTrip_path_backend (b : Str)
    (h1 : trimSlashes b ≠ []) (h2 : '\n' ∉ trimSlashes b) :
    awsAuthBackendConfigIdentityBackendFromPath (awsAuthBackendConfigIdentityPath b)
      = Except.ok (trimSlashes b) := by
  unfold awsAuthBackendConfigIdentityPath
  exact backendFromPath_ok (regexCapture_append _ h1 (newline_free_all h2))

/-- C1 (witness): the round trip at the concrete backend name `"/aws/"`. -/
theorem roundTrip_path_backend_witness :
    trimSlashes "/aws/".data ≠ [] ∧ '\n' ∉ trimSlashes "/aws/".data ∧
    awsAuthBackendConfigIdentityBackendFromPath
        (awsAuthBackendConfigIdentityPath "/aws/".data)
      = Except.ok (trimSlashes "/aws/".data) :=
  ⟨by decide, by decide, roundTrip_path_backend "/aws/".data (by decide) (by decide)⟩

/-- C6: every path the anchored pattern rejects yields the "no backend found"
error, and for every path it accepts `FindStringSubmatch` returns exactly two
elements, so the defensive "unexpected number of matches" branch is
unreachable and the capture group is returned without error. -/
theorem backendFromPath_cases (path : Str) :
    (MatchString path = false →
      awsAuthBackendConfigIdentityBackendFromPath path = Except.error errNoBackend) ∧
    (MatchString path = true →
      ∃ t, FindStringSubmatch path = [path, t] ∧
        (FindStringSubmatch path).length = 2 ∧
        awsAuthBackendConfigIdentityBackendFromPath path = Except.ok t) := by
  constructor
  · intro h
    cases hc : regexCapture path with
    | none => exact backendFromPath_err hc
    | some t =>
      rw [MatchString, hc] at h
      exact absurd h (by simp)
  · intro h
    rw [MatchString] at h
    obtain ⟨t, ht⟩ := Option.isSome_iff_exists.mp h
    refine ⟨t, ?_, ?_, backendFromPath_ok ht⟩
    · rw [FindStringSubmatch, ht]
    · rw [FindStringSubmatch, ht]
      rfl

/-- C6 (witness): the two branches at the concrete paths
`auth/aws/config/identity` (matching) and `bogus` (non-matching). -/
theorem backendFromPath_cases_witness :
    awsAuthBackendConfigIdentityBackendFromPath "bogus".data
      = Except.error errNoBackend ∧
    awsAuthBackendConfigIdentityBackendFromPath "auth/aws/config/identity".data
      = Except.ok "aws".data := by
  obtain ⟨t, hfind, _, hok⟩ :=
    (backendFromPath_cases "auth/aws/config/identity".data).2 (by decide)
  have hfind' : FindStringSubmatch "auth/aws/config/identity".data
      = ["auth/aws/config/identity".data, "aws".data] := by decide
  rw [hfind] at hfind'
  have ht : t = "aws".data := by simpa using hfind'
  exact ⟨(backendFromPath_cases "bogus".data).1 (by decide), ht ▸ hok⟩

/-- C2: for a state whose stored identifier is a conforming path, when the
remote read returns a nil payload with no error, the read callback clears the
identifier, leaves every other field unmodified, issues exactly the one remote
read, and returns nil (success), never an error. -/
theorem read_clears_id_on_not_found (c : Client) (d : ResourceData)
    (hid : MatchString d.id = true)
    (hresp : c.readResp d.id = Except.ok none) :
    awsAuthBackendConfigIdentityRead c d
      = ({d with id := []}, [RemoteCall.read d.id], none) := by
  rw [MatchString] at hid
  obtain ⟨t, ht⟩ := Option.isSome_iff_exists.mp hid
  rw [awsAuthBackendConfigIdentityRead]
  rw [backendFromPath_ok ht, hresp]

/-- C2 (witness): the not-found read at a concrete conforming state. -/
theorem read_clears_id_on_not_found_witness :
    MatchString sampleData.id = true ∧
    clientNotFound.readResp sampleData.id = Except.ok none ∧
    awsAuthBackendConfigIdentityRead clientNotFound sampleData
      = ({sampleData with id := []}, [RemoteCall.read sampleData.id], none) :=
  ⟨by decide, rfl,
    read_clears_id_on_not_found clientNotFound sampleData (by decide) rfl⟩

/-- C7: for a state whose stored identifier does not match the expected path
pattern, the read callback fails with a descriptive error naming the invalid
path, and issues no remote call at all (the remote-call trace is empty). -/
theorem read_fails_fast_on_malformed_id (c : Client) (d : ResourceData)
    (hid : MatchString d.id = false) :
    awsAuthBackendConfigIdentityRead c d
      = (d, [], some (wrapInvalidPathErr d.id errNoBackend)) ∧
    containsSub d.id (wrapInvalidPathErr d.id errNoBackend) := by
  have hc : regexCapture d.id = none := by
    cases hc : regexCapture d.id with
    | none => rfl
    | some t =>
      rw [MatchString, hc] at hid
      exact absurd hid (by simp)
  constructor
  · rw [awsAuthBackendConfigIdentityRead, backendFromPath_err hc]
  · refine ⟨"invalid path ".data ++ ['"'],
      ['"'] ++ " for AWS auth identity config:  ".data ++ errNoBackend, ?_⟩
    simp [wrapInvalidPathErr, goQuote]

/-- C7 (witness): the fail-fast behaviour at a concrete malformed identifier,
against a client whose reads would succeed. -/
theorem read_fails_fast_on_malformed_id_witness :
    MatchString badIdData.id = false ∧
    awsAuthBackendConfigIdentityRead clientFound badIdData
      = (badIdData, [], some (wrapInvalidPathErr badIdData.id errNoBackend)) ∧
    containsSub badIdData.id (wrapInvalidPathErr badIdData.id errNoBackend) := by
  have h := read_fails_fast_on_malformed_id clientFound badIdData (by decide)
  exact ⟨by decide, h.1, h.2⟩

/-- C5: the delete callback is a pure local no-op: for every client and every
state it returns nil, issues no remote call, and leaves the resource data
unchanged (so the remote state cannot be affected). -/
theorem delete_is_pure_noop (c : Client) (d : ResourceData) :
    awsAuthBackendConfigIdentityDelete c d = (d, [], none) := rfl

/-- C3: for every input configuration, if the remote write fails the write
callback returns a wrapped error containing both the target path and the
underlying cause and leaves the resource data (in particular the identifier)
unchanged; if the remote write succeeds it sets the identifier to the built
path, invokes the read callback on that state, and returns the read's result
(state, trailing remote calls, and error). -/
theorem write_wraps_error_or_delegates_to_read (c : Client) (d : ResourceData) :
    (∀ err,
      c.writeResp (awsAuthBackendConfigIdentityPath d.backend) (writePayload d)
          = Except.error err →
      awsAuthBackendConfigIdentityWrite c d
        = (d,
           [RemoteCall.write (awsAuthBackendConfigIdentityPath d.backend) (writePayload d)],
           some (wrapWriteErr (awsAuthBackendConfigIdentityPath d.backend) err)) ∧
      containsSub (awsAuthBackendConfigIdentityPath d.backend)
        (wrapWriteErr (awsAuthBackendConfigIdentityPath d.backend) err) ∧
      containsSub err (wrapWriteErr (awsAuthBackendConfigIdentityPath d.backend) err)) ∧
    (c.writeResp (awsAuthBackendConfigIdentityPath d.backend) (writePayload d)
        = Except.ok () →
      awsAuthBackendConfigIdentityWrite c d
        = ((awsAuthBackendConfigIdentityRead c
              {d with id := awsAuthBackendConfigIdentityPath d.backend}).1,
           RemoteCall.write (awsAuthBackendConfigIdentityPath d.backend) (writePayload d)
             :: (awsAuthBackendConfigIdentityRead c
                  {d with id := awsAuthBackendConfigIdentityPath d.backend}).2.1,
           (awsAuthBackendConfigIdentityRead c
              {d with id := awsAuthBackendConfigIdentityPath d.backend}).2.2)) := by
  constructor
  · intro err herr
    refine ⟨?_, ?_, ?_⟩
    · rw [awsAuthBackendConfigIdentityWrite, herr]
    · refine ⟨"error configuring AWS auth identity config ".data ++ ['"'],
        ['"'] ++ ": ".data ++ err, ?_⟩
      simp [wrapWriteErr, goQuote]
    · refine ⟨"error configuring AWS auth identity config ".data
        ++ goQuote (awsAuthBackendConfigIdentityPath d.backend) ++ ": ".data, [], ?_⟩
      simp [wrapWriteErr]
  · intro hok
    rw [awsAuthBackendConfigIdentityWrite, hok]

/-- C3 (witness): the error branch at a failing client and the success branch
at a client whose writes succeed, both at a concrete configuration. -/
theorem write_wraps_error_or_delegates_to_read_witness :
    awsAuthBackendConfigIdentityWrite clientFailing sampleData
      = (sampleData,
         [RemoteCall.write (awsAuthBackendConfigIdentityPath sampleData.backend)
            (writePayload sampleData)],
         some (wrapWriteErr (awsAuthBackendConfigIdentityPath sampleData.backend)
            "connection refused".data)) ∧
    awsAuthBackendConfigIdentityWrite clientNotFound sampleData
      = ((awsAuthBackendConfigIdentityRead clientNotFound
            {sampleData with id := awsAuthBackendConfigIdentityPath sampleData.backend}).1,
         RemoteCall.write (awsAuthBackendConfigIdentityPath sampleData.backend)
            (writePayload sampleData)
           :: (awsAuthBackendConfigIdentityRead clientNotFound
                {sampleData with id := awsAuthBackendConfigIdentityPath sampleData.backend}).2.1,
         (awsAuthBackendConfigIdentityRead clientNotFound
            {sampleData with id := awsAuthBackendConfigIdentityPath sampleData.backend}).2.2) :=
  ⟨((write_wraps_error_or_delegates_to_read clientFailing sampleData).1
      "connection refused".data rfl).1,
   (write_wraps_error_or_delegates_to_read clientNotFound sampleData).2 rfl⟩

/-- C4 (counterexample): the configuration `sampleData` has no
`iam_metadata` set, yet the key `iam_metadata` appears in the map passed to
the remote write call (the payload map always carries all four keys). -/
theorem write_payload_contains_absent_field :
    sampleData.iam_metadata = none ∧
    (awsAuthBackendConfigIdentityWrite clientNotFound sampleData).2.1.head?
      = some (RemoteCall.write (awsAuthBackendConfigIdentityPath sampleData.backend)
          (writePayload sampleData)) ∧
    "iam_metadata".data ∈ (writePayload sampleData).map Prod.fst :=
  ⟨rfl, rfl, by decide⟩

/-- C4 (amended): the map passed to the remote write call always contains
exactly the four keys `iam_alias`, `iam_metadata`, `ec2_alias` and
`ec2_metadata`, in that order; a metadata field that is absent from the
configuration appears with a nil string-array value rather than being omitted,
and the first remote call of the write callback is always the write of that
map to the built path. -/
theorem write_payload_keys_fixed (c : Client) (d : ResourceData) :
    (writePayload d).map Prod.fst
      = ["iam_alias".data, "iam_metadata".data, "ec2_alias".data, "ec2_metadata".data] ∧
    (writePayload d).lookup "iam_metadata".data
      = some (GoValue.strArr (d.iam_metadata.map TerraformSetToStringArray)) ∧
    (writePayload d).lookup "ec2_metadata".data
      = some (GoValue.strArr (d.ec2_metadata.map TerraformSetToStringArray)) ∧
    (awsAuthBackendConfigIdentityWrite c d).2.1.head?
      = some (RemoteCall.write (awsAuthBackendConfigIdentityPath d.backend)
          (writePayload d)) := by
  refine ⟨rfl, rfl, rfl, ?_⟩
  rw [awsAuthBackendConfigIdentityWrite]
  cases c.writeResp (awsAuthBackendConfigIdentityPath d.backend) (writePayload d) with
  | error err => rfl
  | ok u => rfl

/-- C8: when the remote read succeeds, the exists callback returns
`(payload != nil, nil)` — true exactly when a payload is present — issues
exactly that one read, and leaves the resource data untouched (no field
population, no identifier clearing). -/
theorem exists_reports_presence (c : Client) (d : ResourceData) (r : Option RespData)
    (h : c.readResp d.id = Except.ok r) :
    awsAuthBackendConfigIdentityExists c d
      = (d, [RemoteCall.read d.id], (r.isSome, none)) := by
  rw [awsAuthBackendConfigIdentityExists, h]

/-- C8 (witness): the exists callback at a concrete state, against a client
reporting absence and a client reporting presence. -/
theorem exists_reports_presence_witness :
    awsAuthBackendConfigIdentityExists clientNotFound sampleData
      = (sampleData, [RemoteCall.read sampleData.id], (false, none)) ∧
    awsAuthBackendConfigIdentityExists clientFound sampleData
      = (sampleData, [RemoteCall.read sampleData.id], (true, none)) :=
  ⟨exists_reports_presence clientNotFound sampleData none rfl,
   exists_reports_presence clientFound sampleData (some sampleResp) rfl⟩

/-- C10: when the remote read fails, the exists callback returns `true`
together with a wrapped error naming the path and the underlying cause — a
transport failure is never reported as absence of the resource. -/
theorem exists_true_on_read_error (c : Client) (d : ResourceData) (err : Str)
    (h : c.readResp d.id = Except.error err) :
    awsAuthBackendConfigIdentityExists c d
      = (d, [RemoteCall.read d.id], (true, some (wrapExistsErr d.id err))) ∧
    containsSub d.id (wrapExistsErr d.id err) ∧
    containsSub err (wrapExistsErr d.id err) := by
  refine ⟨?_, ?_, ?_⟩
  · rw [awsAuthBackendConfigIdentityExists, h]
  · refine ⟨"error checking for existence of AWS auth backend identity config ".data
      ++ ['"'], ['"'] ++ ": ".data ++ err, ?_⟩
    simp [wrapExistsErr, goQuote]
  · refine ⟨"error checking for existence of AWS auth backend identity config ".data
      ++ goQuote d.id ++ ": ".data, [], ?_⟩
    simp [wrapExistsErr]

/-- C10 (witness): the exists callback against a failing client at a concrete
state. -/
theorem exists_true_on_read_error_witness :
    awsAuthBackendConfigIdentityExists clientFailing sampleData
      = (sampleData, [RemoteCall.read sampleData.id],
         (true, some (wrapExistsErr sampleData.id "connection refused".data))) ∧
    containsSub sampleData.id (wrapExistsErr sampleData.id "connection refused".data) :=
  ⟨(exists_true_on_read_error clientFailing sampleData "connection refused".data rfl).1,
   (exists_true_on_read_error clientFailing sampleData "connection refused".data rfl).2.1⟩

/-! ### Entity alias conflict (C9)

The implementation of the `vault_identity_entity_alias` resource is not in
this snapshot; only its acceptance test is.  The creation behaviour it
exercises is therefore modelled from the spec. -/

/-- Modelled from the spec: an entity alias is addressed by its name and the
accessor of the auth mount it lives on; within a mount, alias names are
unique. -/
structure AliasKey where
  name : Str
  mount_accessor : Str
deriving DecidableEq

/-- Modelled from the spec: the conflict error produced when creating an alias
whose (name, mount) pair already exists remotely but is not tracked locally;
its message matches the pattern
`IdentityEntityAlias.*already exists.*may be imported` that the acceptance
test asserts. -/
def entityAliasConflictError (k : AliasKey) : Str :=
  "IdentityEntityAlias".data
    ++ (' ' :: (k.name ++ [' ']))
    ++ "already exists".data
    ++ (" for mount accessor ".data ++ (k.mount_accessor ++ "; it ".data))
    ++ "may be imported".data

/-- The unanchored Go regexp `IdentityEntityAlias.*already exists.*may be
imported` matches `e`: the three literals occur in `e`, in this order. -/
def matchesConflictPattern (e : Str) : Prop :=
  ∃ p₁ p₂ p₃ p₄,
    e = p₁ ++ "IdentityEntityAlias".data ++ p₂ ++ "already exists".data
          ++ p₃ ++ "may be imported".data ++ p₄

/-- Modelled from the spec: creating an entity alias.  `remote` is the set of
(name, mount) pairs that exist on the Vault server, `tracked` those the
provider already tracks.  Creating an alias whose pair already exists remotely
but is untracked fails with the conflict error instead of silently succeeding
or overwriting; otherwise the alias is created (or adopted). -/
def identityEntityAliasCreate (remote tracked : List AliasKey) (k : AliasKey) :
    Except Str (List AliasKey) :=
  if k ∈ remote ∧ k ∉ tracked then
    Except.error (entityAliasConflictError k)
  else
    Except.ok (if k ∈ remote then remote else k :: remote)

/-- C9: creating an alias whose (name, mount) pair already exists remotely but
is not tracked locally fails — the remote alias list is not extended or
overwritten — with an error whose message matches
`IdentityEntityAlias.*already exists.*may be imported`, distinguishable from a
generic validation error. -/
theorem entity_alias_duplicate_create_fails (remote tracked : List AliasKey)
    (k : AliasKey) (h1 : k ∈ remote) (h2 : k ∉ tracked) :
    identityEntityAliasCreate remote tracked k
      = Except.error (entityAliasConflictError k) ∧
    matchesConflictPattern (entityAliasConflictError k) := by
  constructor
  · rw [identityEntityAliasCreate, if_pos ⟨h1, h2⟩]
  · refine ⟨[], ' ' :: (k.name ++ [' ']),
      " for mount accessor ".data ++ (k.mount_accessor ++ "; it ".data), [], ?_⟩
    simp [entityAliasConflictError]

/-- C9 (witness): the duplicate-create conflict at a concrete alias key that
exists remotely and is untracked. -/
theorem entity_alias_duplicate_create_fails_witness :
    identityEntityAliasCreate [AliasKey.mk "my-entity-A".data "auth_github_1234".data] []
        (AliasKey.mk "my-entity-A".data "auth_github_1234".data)
      = Except.error (entityAliasConflictError
          (AliasKey.mk "my-entity-A".data "auth_github_1234".data)) ∧
    matchesConflictPattern (entityAliasConflictError
        (AliasKey.mk "my-entity-A".data "auth_github_1234".data)) :=
  entity_alias_duplicate_create_fails
    [AliasKey.mk "my-entity-A".data "auth_github_1234".data] []
    (AliasKey.mk "my-entity-A".data "auth_github_1234".data)
    (by decide) (by decide)

end TPV
